import Mathlib

/-!
Shallow embedding of the EKF-SLAM prediction core of
`src/include/rtslam/robotAbstract.hpp` (classes `Control` and `RobotAbstract`),
together with theorems settling the specification claims about it.

Real numbers of the C++ code (`double`) are modelled by `ℚ`; dynamically sized
`jblas` vectors and matrices are modelled by a length (resp. a pair of
dimensions) plus a total entry function.  A `JFR_ASSERT` failure is modelled by
returning the state reached at the moment of the throw together with `some`
error; a normal return carries `none`.
-/

namespace RtSlam

/-- Error taxonomy of the spec: `JFR_ASSERT` failures are size mismatches or
uses of uninitialized continuous-time members. -/
inductive RtErr where
  | sizeMismatch
  | uninitializedContinuousState
  deriving DecidableEq

/-- A dynamically sized vector of rationals: a length and a total entry
function (entries at or beyond `len` are irrelevant padding). -/
structure Vec where
  len : ℕ
  ent : ℕ → ℚ

/-- The empty (default-constructed) vector. -/
def Vec.empty : Vec := ⟨0, fun _ => 0⟩

/-- The zero vector of a given length. -/
def Vec.zero (k : ℕ) : Vec := ⟨k, fun _ => 0⟩

/-- Scaling a vector by a scalar, `v * a`. -/
def Vec.scale (v : Vec) (a : ℚ) : Vec := ⟨v.len, fun i => v.ent i * a⟩

/-- A dynamically sized matrix of rationals: dimensions and a total entry
function (entries out of range are irrelevant padding). -/
structure Mat where
  rows : ℕ
  cols : ℕ
  ent : ℕ → ℕ → ℚ

/-- The empty (default-constructed) 0×0 matrix. -/
def Mat.empty : Mat := ⟨0, 0, fun _ _ => 0⟩

/-- The zero matrix of given dimensions. -/
def Mat.zero (r c : ℕ) : Mat := ⟨r, c, fun _ _ => 0⟩

/-- Scaling a matrix by a scalar, `M * a`. -/
def Mat.scale (M : Mat) (a : ℚ) : Mat := ⟨M.rows, M.cols, fun i j => M.ent i j * a⟩

/-- Matrix transposition. -/
def Mat.transpose (M : Mat) : Mat := ⟨M.cols, M.rows, fun i j => M.ent j i⟩

/-- Matrix product; the contraction ranges over the left factor's column
count, as `boost::ublas::prod` does on conforming operands. -/
def Mat.mul (A B : Mat) : Mat :=
  ⟨A.rows, B.cols, fun i j => ∑ k ∈ Finset.range A.cols, A.ent i k * B.ent k j⟩

/-- Matrix sum (entrywise). -/
def Mat.add (A B : Mat) : Mat := ⟨A.rows, A.cols, fun i j => A.ent i j + B.ent i j⟩

/-- The quadratic form `vᵀ M v` restricted to the matrix's stored block. -/
def Mat.quadForm (M : Mat) (v : ℕ → ℚ) : ℚ :=
  ∑ i ∈ Finset.range M.rows, ∑ j ∈ Finset.range M.cols, v i * M.ent i j * v j

/-- Positive semi-definiteness, stated through the quadratic form. -/
def Mat.isPSD (M : Mat) : Prop := ∀ v : ℕ → ℚ, 0 ≤ M.quadForm v

/-- Modelled from the spec: class `Gaussian` (file `rtslam/gaussian.hpp`, not
part of this unit).  A mean vector and a covariance matrix of a common size
`n`; per the spec's data model, mean and covariance share dimension `n`. -/
structure Gaussian where
  size : ℕ
  x : Vec
  P : Mat

/-- Modelled from the spec: the `Gaussian(size)` constructor allocates mean
and covariance of the given size (initial values zero). -/
def Gaussian.ofSize (k : ℕ) : Gaussian := ⟨k, Vec.zero k, Mat.zero k k⟩

/-- Modelled from the spec: the mean setter `Gaussian::x(v)`.  Per the spec's
error taxonomy, an operation receiving a vector whose dimension disagrees with
the expected size fails with `SizeMismatch`; otherwise the mean is replaced. -/
def Gaussian.setX (g : Gaussian) (v : Vec) : Gaussian × Option RtErr :=
  if v.len = g.size then ({ g with x := v }, none) else (g, some RtErr.sizeMismatch)

/-- Modelled from the spec: the covariance setter `Gaussian::P(M)`.  Per the
spec's error taxonomy, an operation receiving a matrix whose dimension
disagrees with the expected size fails with `SizeMismatch`; otherwise the
covariance is replaced. -/
def Gaussian.setP (g : Gaussian) (M : Mat) : Gaussian × Option RtErr :=
  if M.rows = g.size then ({ g with P := M }, none) else (g, some RtErr.sizeMismatch)

/-- `class Control : public Gaussian` (robotAbstract.hpp lines 68-155): a
Gaussian control vector with a time interval `dt` and continuous-time shadow
members `x_ct`, `P_ct` (default-constructed empty). -/
structure Control extends Gaussian where
  x_ct : Vec
  P_ct : Mat
  dt : ℚ

/-- `Control(const size_t _size)` (lines 75-78): Gaussian of that size, `dt = 1.0`. -/
def Control.ofSize (k : ℕ) : Control := ⟨Gaussian.ofSize k, Vec.empty, Mat.empty, 1⟩

/-- `Control(const Gaussian & c)` (lines 79-82): copies the Gaussian, `dt = 1.0`. -/
def Control.ofGaussian (g : Gaussian) : Control := ⟨g, Vec.empty, Mat.empty, 1⟩

/-- `Control(const Gaussian & c, const double _dt)` (lines 83-85). -/
def Control.ofGaussianDt (g : Gaussian) (d : ℚ) : Control := ⟨g, Vec.empty, Mat.empty, d⟩

/-- `Control::set_P_continuous` (lines 86-91): asserts the argument's first
dimension equals the control size, then resizes `P_ct` to size×size and
assigns. -/
def Control.set_P_continuous (c : Control) (M : Mat) : Control × Option RtErr :=
  if M.rows = c.size then
    ({ c with P_ct := ⟨c.size, c.size, M.ent⟩ }, none)
  else (c, some RtErr.sizeMismatch)

/-- `Control::set_x_continuous` (lines 92-97): asserts the argument's length
equals the control size, then resizes `x_ct` and assigns. -/
def Control.set_x_continuous (c : Control) (v : Vec) : Control × Option RtErr :=
  if v.len = c.size then
    ({ c with x_ct := ⟨c.size, v.ent⟩ }, none)
  else (c, some RtErr.sizeMismatch)

/-- `Control::convert_P_from_continuous(double _dt)` (lines 106-109): asserts
`P_ct.size1() == size()` (error message: continuous-time covariance not yet
initialized), then sets the Gaussian covariance to `P_ct * _dt`. -/
def Control.convert_P_from_continuous (c : Control) (d : ℚ) : Control × Option RtErr :=
  if c.P_ct.rows = c.size then
    let r := c.toGaussian.setP (c.P_ct.scale d)
    ({ c with toGaussian := r.1 }, r.2)
  else (c, some RtErr.uninitializedContinuousState)

/-- `Control::convert_P_from_continuous(sym_mat & _P_ct, double _dt)`
(lines 118-122): asserts the argument's size, stores it via
`set_P_continuous`, then sets the Gaussian covariance to `P_ct * _dt`. -/
def Control.convert_P_from_continuous2 (c : Control) (M : Mat) (d : ℚ) :
    Control × Option RtErr :=
  if M.rows = c.size then
    let s := c.set_P_continuous M
    match s.2 with
    | some e => (s.1, some e)
    | none =>
      let r := s.1.toGaussian.setP (s.1.P_ct.scale d)
      ({ s.1 with toGaussian := r.1 }, r.2)
  else (c, some RtErr.sizeMismatch)

/-- `Control::convert_from_continuous(double _dt)` (lines 133-138): asserts
only `x_ct.size() == size()` (error message: continuous-time values not yet
initialized), then sets the mean to `x_ct * _dt`, the covariance to
`P_ct * _dt`, and `dt` to `_dt`, in that order; an assertion thrown by a
setter aborts the sequence there, keeping the mutations already made. -/
def Control.convert_from_continuous (c : Control) (d : ℚ) : Control × Option RtErr :=
  if c.x_ct.len = c.size then
    let rx := c.toGaussian.setX (c.x_ct.scale d)
    let c1 : Control := { c with toGaussian := rx.1 }
    match rx.2 with
    | some e => (c1, some e)
    | none =>
      let rp := c1.toGaussian.setP (c1.P_ct.scale d)
      let c2 : Control := { c1 with toGaussian := rp.1 }
      match rp.2 with
      | some e => (c2, some e)
      | none => ({ c2 with dt := d }, none)
  else (c, some RtErr.uninitializedContinuousState)

/-- `Control::convert_from_continuous(Gaussian & Ct, double _dt)`
(lines 149-154): asserts the size, stores covariance and mean as the
continuous shadow values, then discretizes. -/
def Control.convert_from_continuous2 (c : Control) (g : Gaussian) (d : ℚ) :
    Control × Option RtErr :=
  if g.size = c.size then
    let sP := c.set_P_continuous g.P
    match sP.2 with
    | some e => (sP.1, some e)
    | none =>
      let sx := sP.1.set_x_continuous g.x
      match sx.2 with
      | some e => (sx.1, some e)
      | none => sx.1.convert_from_continuous d
  else (c, some RtErr.sizeMismatch)

/-- The Map's shared state (class `MapAbstract`, not part of this unit;
modelled from the spec §3/§6): one global mean vector and one global
covariance matrix, into which every tracked object's state is a slice. -/
structure MapState where
  dim : ℕ
  x : ℕ → ℚ
  P : ℕ → ℕ → ℚ

/-- Modelled from the spec: the covariance-propagation part of `move()`
(spec §4.2 step 4; the body of `RobotAbstract::move` is only declared at
robotAbstract.hpp line 223 in this unit).  The robot's slice occupies indices
`[ro, ro + n)` of the shared covariance `P`; with Jacobian `F` and process
noise `Q`:
- robot block: `P_rr ← F · P_rr · Fᵗ + Q`;
- cross blocks `P_ro ← F · P_ro` (and symmetrically `P_or ← P_or · Fᵗ`);
- blocks not involving the robot are unchanged. -/
def ekfPredictCov (ro n : ℕ) (F Q : Mat) (P : ℕ → ℕ → ℚ) : ℕ → ℕ → ℚ :=
  fun i j =>
    if ro ≤ i ∧ i < ro + n then
      if ro ≤ j ∧ j < ro + n then
        (∑ k ∈ Finset.range n, ∑ l ∈ Finset.range n,
          F.ent (i - ro) k * P (ro + k) (ro + l) * F.ent (j - ro) l)
          + Q.ent (i - ro) (j - ro)
      else
        ∑ k ∈ Finset.range n, F.ent (i - ro) k * P (ro + k) j
    else if ro ≤ j ∧ j < ro + n then
      ∑ l ∈ Finset.range n, P i (ro + l) * F.ent (j - ro) l
    else P i j

/-- Modelled from the spec: committing the new pose mean into the robot's
slice `[ro, ro + n)` of the shared mean vector (spec §4.2 step 3). -/
def commitPose (ro n : ℕ) (xnew : Vec) (x : ℕ → ℚ) : ℕ → ℚ :=
  fun i => if ro ≤ i ∧ i < ro + n then xnew.ent (i - ro) else x i

/-- `class RobotAbstract : public MapObject` (lines 163-290).  The robot's
pose/state is a slice of the shared map state starting at offset `ro` with
length `n`; the pure virtual motion model `move_func` (line 279) is held as a
function field producing `(xnew, XNEW_x, XNEW_u)`. -/
structure RobotAbstract where
  n : ℕ
  ro : ℕ
  control : Control
  constantPerturbation : Bool
  XNEW_x : Mat
  XNEW_control : Mat
  Q : Mat
  model : Vec → Vec → ℚ → Vec × Mat × Mat

/-- The robot's view of its own state slice inside the shared map mean
(what `state.x()` reads at line 285). -/
def RobotAbstract.stateSlice (r : RobotAbstract) (m : MapState) : Vec :=
  ⟨r.n, fun i => m.x (r.ro + i)⟩

/-- `RobotAbstract::computeStatePerturbation` (declared line 253; body not in
this unit).  Modelled from the spec and the in-source doc comment at lines
245-252: `Q = XNEW_control * control.P() * XNEW_control'`. -/
def RobotAbstract.computeStatePerturbation (r : RobotAbstract) : RobotAbstract :=
  { r with Q := r.XNEW_control.mul (r.control.P.mul r.XNEW_control.transpose) }

/-- Modelled from the spec: `RobotAbstract::move()` (declared line 223; body
not in this unit).  Per spec §4.2: evaluate the motion model at the current
state slice and control (the inline `move_func()` wrapper, lines 284-288),
refresh `Q` via `computeStatePerturbation()` unless `constantPerturbation`,
commit the new pose mean, and propagate the shared covariance. -/
def RobotAbstract.move (r : RobotAbstract) (m : MapState) : RobotAbstract × MapState :=
  let x := r.stateSlice m
  let u := r.control.x
  let res := r.model x u r.control.dt
  let r1 : RobotAbstract := { r with XNEW_x := res.2.1, XNEW_control := res.2.2 }
  let r2 := if r1.constantPerturbation then r1 else r1.computeStatePerturbation
  (r2, ⟨m.dim, commitPose r.ro r.n res.1 m.x, ekfPredictCov r.ro r.n res.2.1 r2.Q m.P⟩)

/-- `RobotAbstract::set_control` (lines 215-217): wholesale assignment of the
control member. -/
def RobotAbstract.set_control (r : RobotAbstract) (c : Control) : RobotAbstract :=
  { r with control := c }

/-- `RobotAbstract::move(const Control & _control)` (lines 229-232):
`set_control(_control); move();`. -/
def RobotAbstract.move_control (r : RobotAbstract) (c : Control) (m : MapState) :
    RobotAbstract × MapState :=
  (r.set_control c).move m

/-- `RobotAbstract::move(V & _u)` (lines 238-243): asserts
`_u.size() == control.size()` (wrong control size), then `control.x(_u)` and
`move()`. -/
def RobotAbstract.move_vec (r : RobotAbstract) (u : Vec) (m : MapState) :
    (RobotAbstract × MapState) × Option RtErr :=
  if u.len = r.control.size then
    let rx := r.control.toGaussian.setX u
    let r1 : RobotAbstract := { r with control := { r.control with toGaussian := rx.1 } }
    match rx.2 with
    | some e => ((r1, m), some e)
    | none => (r1.move m, none)
  else ((r, m), some RtErr.sizeMismatch)

/-- Buffers visible to the inline `move_func()` wrapper (lines 284-288):
its two locals (copies of `state.x()` and `control.x()`) and the two Jacobian
member matrices. -/
inductive WrapperBuf where
  | localX
  | localU
  | memberXNEWx
  | memberXNEWu
  deriving DecidableEq

/-- The argument wiring of a call to the virtual
`move_func(_x, _u, _dt, _xnew, _XNEW_x, _XNEW_u)`: which buffer each
vector/matrix parameter is bound to. -/
structure MoveFuncArgs where
  arg_x : WrapperBuf
  arg_u : WrapperBuf
  arg_xnew : WrapperBuf
  arg_XNEW_x : WrapperBuf
  arg_XNEW_u : WrapperBuf

/-- The call at robotAbstract.hpp line 287:
`move_func(x, u, control.dt, x, XNEW_x, XNEW_control)` — the local copy `x`
of the state mean is passed both as the input `_x` and as the output
`_xnew`. -/
def move_func_args : MoveFuncArgs :=
  ⟨WrapperBuf.localX, WrapperBuf.localU, WrapperBuf.localX,
   WrapperBuf.memberXNEWx, WrapperBuf.memberXNEWu⟩

/-- Extraction of the `h × w` block of the shared covariance whose top-left
corner is at `(rr, cc)`. -/
def blockOf (P : ℕ → ℕ → ℚ) (rr cc h w : ℕ) : Mat :=
  ⟨h, w, fun a b => P (rr + a) (cc + b)⟩

/-- Claim C5: `convert_P_from_continuous(double)` fails with
`UninitializedContinuousState` if no continuous covariance was previously
stored (the stored state is exactly `P_ct.rows = size`, which a successful
`set_P_continuous` establishes); otherwise it succeeds and sets the Control's
covariance exactly to the elementwise product `P_ct * dt`. -/
theorem convert_P_from_continuous_spec (c : Control) (d : ℚ) :
    (c.P_ct.rows ≠ c.size →
      c.convert_P_from_continuous d = (c, some RtErr.uninitializedContinuousState))
    ∧ (c.P_ct.rows = c.size →
        c.convert_P_from_continuous d =
          ({ c with toGaussian := { c.toGaussian with P := c.P_ct.scale d } }, none)
        ∧ ∀ i j, ((c.convert_P_from_continuous d).1).P.ent i j = c.P_ct.ent i j * d)
    ∧ (∀ M, (c.set_P_continuous M).2 = none →
        (((c.set_P_continuous M).1).convert_P_from_continuous d).2 = none) := by
  refine ⟨fun h => ?_, fun h => ?_, fun M hM => ?_⟩
  · simp [Control.convert_P_from_continuous, h]
  · have hrows : (c.P_ct.scale d).rows = c.toGaussian.size := h
    constructor
    · simp [Control.convert_P_from_continuous, h, Gaussian.setP, hrows]
    · intro i j
      simp [Control.convert_P_from_continuous, h, Gaussian.setP, hrows, Mat.scale]
  · by_cases hs : M.rows = c.size
    · simp [Control.set_P_continuous, hs] at hM ⊢
      simp [Control.convert_P_from_continuous, Gaussian.setP, Mat.scale]
    · simp [Control.set_P_continuous, hs] at hM

/-- Claim C5 witness: a concrete size-1 control; unstored it fails, after
`set_P_continuous` it succeeds with covariance `P_ct * dt`. -/
theorem convert_P_from_continuous_spec_witness :
    (Control.ofSize 1).P_ct.rows ≠ (Control.ofSize 1).size
    ∧ (Control.ofSize 1).convert_P_from_continuous 3 =
        (Control.ofSize 1, some RtErr.uninitializedContinuousState) := by
  refine ⟨?_, (convert_P_from_continuous_spec (Control.ofSize 1) 3).1 ?_⟩ <;>
    simp [Control.ofSize, Mat.empty, Gaussian.ofSize]

/-- Claim C8: neither `convert_P_from_continuous` overload modifies the
Control's `dt` member, whether the call succeeds or fails; only
`convert_from_continuous` assigns `dt` (to its argument, on success). -/
theorem convert_P_preserves_dt :
    (∀ (c : Control) (d : ℚ), ((c.convert_P_from_continuous d).1).dt = c.dt)
    ∧ (∀ (c : Control) (M : Mat) (d : ℚ), ((c.convert_P_from_continuous2 M d).1).dt = c.dt)
    ∧ (∀ (c : Control) (d : ℚ), (c.convert_from_continuous d).2 = none →
        ((c.convert_from_continuous d).1).dt = d) := by
  refine ⟨fun c d => ?_, fun c M d => ?_, fun c d h => ?_⟩
  · by_cases hs : c.P_ct.rows = c.size
    · simp [Control.convert_P_from_continuous, hs, Gaussian.setP]
    · simp [Control.convert_P_from_continuous, hs]
  · by_cases hs : M.rows = c.size
    · simp [Control.convert_P_from_continuous2, hs, Control.set_P_continuous,
        Gaussian.setP]
    · simp [Control.convert_P_from_continuous2, hs]
  · by_cases hx : c.x_ct.len = c.size
    · by_cases hp : c.P_ct.rows = c.size
      · simp [Control.convert_from_continuous, hx, hp, Gaussian.setX, Gaussian.setP,
          Mat.scale, Vec.scale]
      · simp [Control.convert_from_continuous, hx, hp, Gaussian.setX, Gaussian.setP,
          Mat.scale, Vec.scale] at h
    · simp [Control.convert_from_continuous, hx] at h

/-- Claim C8 witness: on a fully stored concrete control,
`convert_from_continuous 7` succeeds and sets `dt` to 7, while
`convert_P_from_continuous` leaves `dt` at its old value 5. -/
theorem convert_P_preserves_dt_witness :
    (((⟨⟨1, ⟨1, fun _ => 0⟩, ⟨1, 1, fun _ _ => 0⟩⟩, ⟨1, fun _ => 2⟩,
        ⟨1, 1, fun _ _ => 4⟩, 5⟩ : Control).convert_P_from_continuous 7).1).dt = 5
    ∧ ((⟨⟨1, ⟨1, fun _ => 0⟩, ⟨1, 1, fun _ _ => 0⟩⟩, ⟨1, fun _ => 2⟩,
        ⟨1, 1, fun _ _ => 4⟩, 5⟩ : Control).convert_from_continuous 7).2 = none
    ∧ ((((⟨⟨1, ⟨1, fun _ => 0⟩, ⟨1, 1, fun _ _ => 0⟩⟩, ⟨1, fun _ => 2⟩,
        ⟨1, 1, fun _ _ => 4⟩, 5⟩ : Control).convert_from_continuous 7).1).dt = 7) := by
  refine ⟨convert_P_preserves_dt.1 _ 7, rfl, convert_P_preserves_dt.2.2 _ 7 rfl⟩

/-- Claim C9: `move(control)` (via `set_control`) replaces the robot's control
wholesale, so the previously stored `dt` is discarded; a Control built from a
size alone or from a bare Gaussian carries `dt = 1.0` (the two-argument
constructor keeps its argument), and passing such a Control to `move` resets
the robot's time step to 1.0. -/
theorem set_control_replaces_control :
    (∀ k, (Control.ofSize k).dt = 1)
    ∧ (∀ g, (Control.ofGaussian g).dt = 1)
    ∧ (∀ g d, (Control.ofGaussianDt g d).dt = d)
    ∧ (∀ (r : RobotAbstract) (c : Control) (m : MapState),
        ((r.move_control c m).1).control = c)
    ∧ (∀ (r : RobotAbstract) (g : Gaussian) (m : MapState),
        ((r.move_control (Control.ofGaussian g) m).1).control.dt = 1) := by
  have hctl : ∀ (r : RobotAbstract) (c : Control) (m : MapState),
      ((r.move_control c m).1).control = c := by
    intro r c m
    unfold RobotAbstract.move_control RobotAbstract.move RobotAbstract.set_control
    cases h : ({ r with control := c } : RobotAbstract).constantPerturbation <;>
      simp [h, RobotAbstract.computeStatePerturbation]
  exact ⟨fun _ => rfl, fun _ => rfl, fun _ _ => rfl, hctl,
    fun r g m => by rw [hctl r (Control.ofGaussian g) m]; rfl⟩

/-- A concrete size-1 control whose continuous covariance is stored and equals
the (PSD, nonzero) 1×1 matrix `[[1]]`. -/
def cP1 : Control :=
  ⟨⟨1, ⟨1, fun _ => 0⟩, ⟨1, 1, fun _ _ => 0⟩⟩, Vec.empty, ⟨1, 1, fun _ _ => 1⟩, 1⟩

/-- Claim C10: `convert_P_from_continuous` imposes no sign or positivity
restriction on `dt`: whenever the continuous covariance is stored it succeeds
for every `dt` (including zero and negative values) and sets
`covariance = P_ct * dt`; consequently positive semi-definiteness of the
covariance is not preserved: for the stored PSD, nonzero `P_ct = [[1]]` and
`dt = -1` the resulting covariance is not PSD. -/
theorem convert_P_no_sign_restriction :
    (∀ (c : Control) (d : ℚ), c.P_ct.rows = c.size →
      (c.convert_P_from_continuous d).2 = none
      ∧ ∀ i j, ((c.convert_P_from_continuous d).1).P.ent i j = c.P_ct.ent i j * d)
    ∧ Mat.isPSD cP1.P_ct
    ∧ cP1.P_ct.ent 0 0 ≠ 0
    ∧ ¬ Mat.isPSD ((cP1.convert_P_from_continuous (-1)).1).P := by
  refine ⟨fun c d h => ?_, fun v => ?_, by norm_num [cP1], fun h => ?_⟩
  · have hrows : (c.P_ct.scale d).rows = c.toGaussian.size := h
    constructor
    · simp [Control.convert_P_from_continuous, h, Gaussian.setP, hrows]
    · intro i j
      simp [Control.convert_P_from_continuous, h, Gaussian.setP, hrows, Mat.scale]
  · simpa [cP1, Mat.quadForm, Finset.sum_range_one] using mul_self_nonneg (v 0)
  · have hv := h (fun _ => 1)
    simp [cP1, Control.convert_P_from_continuous, Gaussian.setP, Mat.scale,
      Mat.quadForm, Finset.sum_range_one] at hv
    linarith

/-- Claim C10 witness: the generic success part applied to the concrete
stored control `cP1` at `dt = -1`. -/
theorem convert_P_no_sign_restriction_witness :
    cP1.P_ct.rows = cP1.size
    ∧ ((cP1.convert_P_from_continuous (-1)).2 = none
      ∧ ∀ i j, ((cP1.convert_P_from_continuous (-1)).1).P.ent i j
          = cP1.P_ct.ent i j * (-1)) :=
  ⟨rfl, convert_P_no_sign_restriction.1 cP1 (-1) rfl⟩

/-- A concrete size-1 control whose continuous mean is stored (`x_ct = [3]`)
but whose continuous covariance is not (`P_ct` is the empty 0×0 matrix). -/
def cHalf : Control :=
  ⟨⟨1, ⟨1, fun _ => 0⟩, ⟨1, 1, fun _ _ => 0⟩⟩, ⟨1, fun _ => 3⟩, Mat.empty, 5⟩

/-- Claim C3 counterexample: on `cHalf` (continuous mean stored, continuous
covariance not stored), `convert_from_continuous 2` does not fail with
`UninitializedContinuousState` — it fails with `SizeMismatch` from the
covariance setter — and it does not leave the Control's mean unchanged: the
mean has already been overwritten with `x_ct * dt = [6]`. -/
theorem convert_from_continuous_cex :
    (cHalf.convert_from_continuous 2).2 = some RtErr.sizeMismatch
    ∧ (cHalf.convert_from_continuous 2).2 ≠ some RtErr.uninitializedContinuousState
    ∧ ((cHalf.convert_from_continuous 2).1).x.ent 0 = 6
    ∧ cHalf.x.ent 0 = 0 := by
  refine ⟨rfl, by rw [show (cHalf.convert_from_continuous 2).2
    = some RtErr.sizeMismatch from rfl]; decide, ?_, rfl⟩
  norm_num [cHalf, Control.convert_from_continuous, Gaussian.setX, Gaussian.setP,
    Vec.scale, Mat.scale, Mat.empty]

/-- Claim C3 (amended): `convert_from_continuous(dt)` checks only the
continuous mean: if `x_ct` is not stored it fails with
`UninitializedContinuousState` leaving the Control unchanged; if `x_ct` is
stored but `P_ct` is not, it first overwrites the mean with `x_ct * dt` and
then fails with `SizeMismatch` from the covariance setter, leaving covariance
and `dt` unchanged; when both are stored it sets `mean := x_ct * dt`,
`covariance := P_ct * dt` and `dt := dt`. -/
theorem convert_from_continuous_cases (c : Control) (d : ℚ) :
    (c.x_ct.len ≠ c.size →
      c.convert_from_continuous d = (c, some RtErr.uninitializedContinuousState))
    ∧ (c.x_ct.len = c.size → c.P_ct.rows ≠ c.size →
      c.convert_from_continuous d =
        ({ c with toGaussian := { c.toGaussian with x := c.x_ct.scale d } },
          some RtErr.sizeMismatch))
    ∧ (c.x_ct.len = c.size → c.P_ct.rows = c.size →
      c.convert_from_continuous d =
        (⟨⟨c.size, c.x_ct.scale d, c.P_ct.scale d⟩, c.x_ct, c.P_ct, d⟩, none)) := by
  refine ⟨fun hx => ?_, fun hx hp => ?_, fun hx hp => ?_⟩
  · simp [Control.convert_from_continuous, hx]
  · have hlen : (c.x_ct.scale d).len = c.toGaussian.size := hx
    have hrows : ¬ (c.P_ct.scale d).rows = c.toGaussian.size := hp
    simp [Control.convert_from_continuous, hx, Gaussian.setX, Gaussian.setP,
      hlen, hrows]
  · have hlen : (c.x_ct.scale d).len = c.toGaussian.size := hx
    have hrows : (c.P_ct.scale d).rows = c.toGaussian.size := hp
    simp [Control.convert_from_continuous, hx, Gaussian.setX, Gaussian.setP,
      hlen, hrows]

/-- Claim C3 witness: the fully stored branch of the amended statement
applied to a concrete control. -/
theorem convert_from_continuous_cases_witness :
    ((⟨⟨1, ⟨1, fun _ => 0⟩, ⟨1, 1, fun _ _ => 0⟩⟩, ⟨1, fun _ => 2⟩,
        ⟨1, 1, fun _ _ => 4⟩, 5⟩ : Control).convert_from_continuous 7 =
      (⟨⟨1, (⟨1, fun _ => 2⟩ : Vec).scale 7, (⟨1, 1, fun _ _ => 4⟩ : Mat).scale 7⟩,
        ⟨1, fun _ => 2⟩, ⟨1, 1, fun _ _ => 4⟩, 7⟩, none)) :=
  (convert_from_continuous_cases _ 7).2.2 rfl rfl

/-- Claim C2: `move(u)` with `u` of the wrong dimension fails with
`SizeMismatch` and leaves the control's mean, covariance and `dt` and the
Map's shared mean and covariance unchanged (the returned state is exactly the
input state); with `u` of the correct dimension it sets the control mean to
`u`, keeps the control covariance and `dt`, and performs `move()`. -/
theorem move_vec_spec (r : RobotAbstract) (u : Vec) (m : MapState) :
    (u.len ≠ r.control.size →
      r.move_vec u m = ((r, m), some RtErr.sizeMismatch))
    ∧ (u.len = r.control.size →
      r.move_vec u m =
        (({ r with control := { r.control with toGaussian :=
            { r.control.toGaussian with x := u } } }).move m, none)) := by
  refine ⟨fun h => ?_, fun h => ?_⟩
  · simp [RobotAbstract.move_vec, h]
  · simp [RobotAbstract.move_vec, h, Gaussian.setX]

/-- Claim C2 witness: a concrete size-1-control robot rejects a length-2
control vector, returning the state unchanged. -/
theorem move_vec_spec_witness :
    (Vec.zero 2).len ≠ (⟨1, 0, Control.ofSize 1, true, Mat.zero 1 1, Mat.zero 1 1,
      Mat.zero 1 1, fun _ _ _ => (Vec.zero 1, Mat.zero 1 1, Mat.zero 1 1)⟩ :
        RobotAbstract).control.size
    ∧ (⟨1, 0, Control.ofSize 1, true, Mat.zero 1 1, Mat.zero 1 1, Mat.zero 1 1,
        fun _ _ _ => (Vec.zero 1, Mat.zero 1 1, Mat.zero 1 1)⟩ :
        RobotAbstract).move_vec (Vec.zero 2) ⟨1, fun _ => 0, fun _ _ => 0⟩ =
      (((⟨1, 0, Control.ofSize 1, true, Mat.zero 1 1, Mat.zero 1 1, Mat.zero 1 1,
        fun _ _ _ => (Vec.zero 1, Mat.zero 1 1, Mat.zero 1 1)⟩ : RobotAbstract),
        (⟨1, fun _ => 0, fun _ _ => 0⟩ : MapState)), some RtErr.sizeMismatch) := by
  refine ⟨by norm_num [Vec.zero, Control.ofSize, Gaussian.ofSize], ?_⟩
  exact (move_vec_spec _ (Vec.zero 2) _).1
    (by norm_num [Vec.zero, Control.ofSize, Gaussian.ofSize])

/-- Claim C4: for the current Jacobian `XNEW_control` and control covariance
(with agreeing inner dimension, and the covariance symmetric on its stored
block, as the data-model invariant for a covariance requires),
`computeStatePerturbation()` sets `Q` to
`XNEW_control * control.covariance * XNEW_controlᵗ`, and the resulting `Q` is
symmetric. -/
theorem computeStatePerturbation_spec (r : RobotAbstract)
    (hc : r.XNEW_control.cols = r.control.P.cols)
    (hsym : ∀ k l, k < r.control.P.cols → l < r.control.P.cols →
      r.control.P.ent k l = r.control.P.ent l k) :
    (r.computeStatePerturbation).Q
      = r.XNEW_control.mul (r.control.P.mul r.XNEW_control.transpose)
    ∧ ∀ i j, (r.computeStatePerturbation).Q.ent i j
        = (r.computeStatePerturbation).Q.ent j i := by
  refine ⟨rfl, fun i j => ?_⟩
  have key : ∀ a b, (r.computeStatePerturbation).Q.ent a b
      = ∑ k ∈ Finset.range r.control.P.cols, ∑ l ∈ Finset.range r.control.P.cols,
          r.XNEW_control.ent a k * (r.control.P.ent k l * r.XNEW_control.ent b l) := by
    intro a b
    simp [RobotAbstract.computeStatePerturbation, Mat.mul, Mat.transpose, hc,
      Finset.mul_sum]
  rw [key i j, key j i, Finset.sum_comm]
  refine Finset.sum_congr rfl fun b hb => Finset.sum_congr rfl fun a ha => ?_
  rw [hsym a b (Finset.mem_range.mp ha) (Finset.mem_range.mp hb)]
  ring

/-- A concrete 1-state robot with `XNEW_control = [[2]]` and control
covariance `[[3]]`. -/
def rQ : RobotAbstract :=
  ⟨1, 0, ⟨⟨1, Vec.zero 1, ⟨1, 1, fun _ _ => 3⟩⟩, Vec.empty, Mat.empty, 1⟩, false,
    Mat.zero 1 1, ⟨1, 1, fun _ _ => 2⟩, Mat.zero 1 1,
    fun _ _ _ => (Vec.zero 1, Mat.zero 1 1, Mat.zero 1 1)⟩

/-- Claim C4 witness: the formula and symmetry at the concrete robot `rQ`. -/
theorem computeStatePerturbation_spec_witness :
    rQ.XNEW_control.cols = rQ.control.P.cols
    ∧ ((rQ.computeStatePerturbation).Q
        = rQ.XNEW_control.mul (rQ.control.P.mul rQ.XNEW_control.transpose)
      ∧ ∀ i j, (rQ.computeStatePerturbation).Q.ent i j
          = (rQ.computeStatePerturbation).Q.ent j i) :=
  ⟨rfl, computeStatePerturbation_spec rQ rfl (fun _ _ _ _ => rfl)⟩

/-- Claim C7: whatever the robot's Jacobian `XNEW_control` and control
covariance hold when `move()` is called (they may have changed arbitrarily
since the previous call), `move()` leaves `Q` exactly as it was whenever
`constantPerturbation` is true, and refreshes
`Q = XNEW_control * control.P * XNEW_controlᵗ` (with the freshly computed
Jacobian) whenever it is false. -/
theorem constantPerturbation_bypass (r : RobotAbstract) (m : MapState) :
    (r.constantPerturbation = true → ((r.move m).1).Q = r.Q)
    ∧ (r.constantPerturbation = false →
      ((r.move m).1).Q = (((r.move m).1).XNEW_control).mul
        (r.control.P.mul (((r.move m).1).XNEW_control).transpose)) := by
  refine ⟨fun h => ?_, fun h => ?_⟩
  · simp [RobotAbstract.move, h]
  · simp [RobotAbstract.move, h, RobotAbstract.computeStatePerturbation]

/-- A concrete robot with `constantPerturbation = true` and a nonzero
manually set `Q0 = [[7]]`, whose stale `XNEW_control` differs from the model
output. -/
def rConst : RobotAbstract :=
  ⟨1, 0, ⟨⟨1, Vec.zero 1, ⟨1, 1, fun _ _ => 3⟩⟩, Vec.empty, Mat.empty, 1⟩, true,
    Mat.zero 1 1, ⟨1, 1, fun _ _ => 2⟩, ⟨1, 1, fun _ _ => 7⟩,
    fun _ _ _ => (Vec.zero 1, Mat.zero 1 1, Mat.zero 1 1)⟩

/-- Claim C7 witness: a `move()` on the concrete constant-perturbation robot
leaves its manually set `Q` untouched. -/
theorem constantPerturbation_bypass_witness :
    rConst.constantPerturbation = true
    ∧ ((rConst.move ⟨1, fun _ => 0, fun _ _ => 0⟩).1).Q = rConst.Q :=
  ⟨rfl, (constantPerturbation_bypass rConst ⟨1, fun _ => 0, fun _ _ => 0⟩).1 rfl⟩

/-- After `move()`, the shared covariance is exactly the EKF prediction built
from the moved robot's Jacobian `XNEW_x` and process noise `Q`. -/
theorem move_map_cov (r : RobotAbstract) (m : MapState) :
    ((r.move m).2).P
      = ekfPredictCov r.ro r.n (((r.move m).1).XNEW_x) (((r.move m).1).Q) m.P := by
  unfold RobotAbstract.move
  cases h : r.constantPerturbation <;>
    simp [h, RobotAbstract.computeStatePerturbation]

/-- Claim C1: on every `move()`, with the produced Jacobian `F = XNEW_x`
(of row dimension the robot size) and process noise `Q`, the robot's own
covariance block becomes `F · P_rr · Fᵗ + Q`, every cross block between the
robot slice and any disjoint slice `[oo, oo + w)` becomes `F · P_ro`, and
every block not involving the robot's slice is left unchanged. -/
theorem move_cov_blocks (r : RobotAbstract) (m : MapState)
    (hFc : (((r.move m).1).XNEW_x).cols = r.n) :
    (∀ a b, a < r.n → b < r.n →
      ((r.move m).2).P (r.ro + a) (r.ro + b)
        = (((((r.move m).1).XNEW_x).mul ((blockOf m.P r.ro r.ro r.n r.n).mul
            ((((r.move m).1).XNEW_x).transpose))).add (((r.move m).1).Q)).ent a b)
    ∧ (∀ oo w, oo + w ≤ r.ro ∨ r.ro + r.n ≤ oo → ∀ a b, a < r.n → b < w →
      ((r.move m).2).P (r.ro + a) (oo + b)
        = ((((r.move m).1).XNEW_x).mul (blockOf m.P r.ro oo r.n w)).ent a b)
    ∧ (∀ i j, ¬(r.ro ≤ i ∧ i < r.ro + r.n) → ¬(r.ro ≤ j ∧ j < r.ro + r.n) →
      ((r.move m).2).P i j = m.P i j) := by
  rw [move_map_cov r m]
  refine ⟨fun a b ha hb => ?_, fun oo w hd a b ha hb => ?_, fun i j hi hj => ?_⟩
  · have hia : r.ro ≤ r.ro + a ∧ r.ro + a < r.ro + r.n := by omega
    have hjb : r.ro ≤ r.ro + b ∧ r.ro + b < r.ro + r.n := by omega
    simp only [ekfPredictCov, if_pos hia, if_pos hjb, Nat.add_sub_cancel_left,
      Mat.mul, Mat.add, Mat.transpose, blockOf, hFc]
    simp [Finset.mul_sum, mul_assoc]
  · have hia : r.ro ≤ r.ro + a ∧ r.ro + a < r.ro + r.n := by omega
    have hjb : ¬(r.ro ≤ oo + b ∧ oo + b < r.ro + r.n) := by omega
    simp only [ekfPredictCov, if_pos hia, if_neg hjb, Nat.add_sub_cancel_left,
      Mat.mul, blockOf, hFc]
  · simp only [ekfPredictCov, if_neg hi, if_neg hj]

/-- A concrete robot occupying slice `[0, 1)` of a 3-dimensional map. -/
def rBlk : RobotAbstract :=
  ⟨1, 0, Control.ofSize 1, true, Mat.zero 1 1, Mat.zero 1 1,
    ⟨1, 1, fun _ _ => 7⟩, fun _ _ _ => (Vec.zero 1, ⟨1, 1, fun _ _ => 2⟩, Mat.zero 1 1)⟩

/-- A concrete 3-dimensional shared map state. -/
def mBlk : MapState := ⟨3, fun i => i, fun i j => (i + 2 * j : ℚ)⟩

/-- Claim C1 witness: the block propagation at the concrete robot `rBlk` and
map `mBlk`. -/
theorem move_cov_blocks_witness :
    (((rBlk.move mBlk).1).XNEW_x).cols = rBlk.n
    ∧ ((∀ a b, a < rBlk.n → b < rBlk.n →
        ((rBlk.move mBlk).2).P (rBlk.ro + a) (rBlk.ro + b)
          = (((((rBlk.move mBlk).1).XNEW_x).mul
              ((blockOf mBlk.P rBlk.ro rBlk.ro rBlk.n rBlk.n).mul
                ((((rBlk.move mBlk).1).XNEW_x).transpose))).add
              (((rBlk.move mBlk).1).Q)).ent a b)
      ∧ (∀ oo w, oo + w ≤ rBlk.ro ∨ rBlk.ro + rBlk.n ≤ oo →
          ∀ a b, a < rBlk.n → b < w →
          ((rBlk.move mBlk).2).P (rBlk.ro + a) (oo + b)
            = ((((rBlk.move mBlk).1).XNEW_x).mul
                (blockOf mBlk.P rBlk.ro oo rBlk.n w)).ent a b)
      ∧ (∀ i j, ¬(rBlk.ro ≤ i ∧ i < rBlk.ro + rBlk.n) →
          ¬(rBlk.ro ≤ j ∧ j < rBlk.ro + rBlk.n) →
          ((rBlk.move mBlk).2).P i j = mBlk.P i j)) :=
  ⟨rfl, move_cov_blocks rBlk mBlk rfl⟩

/-- Claim C6 counterexample: in the inline wrapper's call at
robotAbstract.hpp line 287, the buffer passed as the input state vector `_x`
is the very same local buffer passed as the output state vector `_xnew`:
the input and output state vectors of the motion-model evaluation alias. -/
theorem move_func_aliasing_cex :
    move_func_args.arg_x = move_func_args.arg_xnew := rfl

/-- Claim C6 (amended): the wrapper passes the same local buffer as input
state `_x` and output `_xnew` (they alias); that buffer is a copy of the
state, and the motion model is evaluated only at the current pose slice,
control mean and `dt`, before any state change is committed — the outcome of
`move()` depends on the model only through its value at those current
arguments; and when the virtual model meets its sizing contract, the robot's
Jacobian members end up sized exactly n×n and n×m. -/
theorem move_func_wrapper_spec :
    move_func_args.arg_x = move_func_args.arg_xnew
    ∧ (∀ (r : RobotAbstract) (m : MapState) (f : Vec → Vec → ℚ → Vec × Mat × Mat),
        f (r.stateSlice m) r.control.x r.control.dt
          = r.model (r.stateSlice m) r.control.x r.control.dt →
        (({ r with model := f }).move m).2 = (r.move m).2
        ∧ ((({ r with model := f }).move m).1).XNEW_x = ((r.move m).1).XNEW_x
        ∧ ((({ r with model := f }).move m).1).XNEW_control
            = ((r.move m).1).XNEW_control
        ∧ ((({ r with model := f }).move m).1).Q = ((r.move m).1).Q)
    ∧ (∀ (r : RobotAbstract) (m : MapState),
        (∀ x u d, (((r.model x u d).2.1).rows = r.n ∧ ((r.model x u d).2.1).cols = r.n)
          ∧ ((r.model x u d).2.2).rows = r.n
          ∧ ((r.model x u d).2.2).cols = r.control.size) →
        (((r.move m).1).XNEW_x.rows = r.n ∧ ((r.move m).1).XNEW_x.cols = r.n)
        ∧ ((r.move m).1).XNEW_control.rows = r.n
        ∧ ((r.move m).1).XNEW_control.cols = r.control.size) := by
  refine ⟨rfl, fun r m f h => ?_, fun r m h => ?_⟩
  · unfold RobotAbstract.move
    have hs : ({ r with model := f } : RobotAbstract).stateSlice m
        = r.stateSlice m := rfl
    simp only [hs, h]
    cases hcp : r.constantPerturbation <;>
      simp [hcp, RobotAbstract.computeStatePerturbation]
  · have hx : ((r.move m).1).XNEW_x
        = (r.model (r.stateSlice m) r.control.x r.control.dt).2.1 := by
      unfold RobotAbstract.move
      cases hcp : r.constantPerturbation <;>
        simp [hcp, RobotAbstract.computeStatePerturbation]
    have hu : ((r.move m).1).XNEW_control
        = (r.model (r.stateSlice m) r.control.x r.control.dt).2.2 := by
      unfold RobotAbstract.move
      cases hcp : r.constantPerturbation <;>
        simp [hcp, RobotAbstract.computeStatePerturbation]
    rw [hx, hu]
    exact h (r.stateSlice m) r.control.x r.control.dt

/-- Claim C6 witness: the model-dependence and sizing parts applied to the
concrete robot `rBlk` and map `mBlk`. -/
theorem move_func_wrapper_spec_witness :
    ((({ rBlk with model := fun _ _ _ =>
          (Vec.zero 1, ⟨1, 1, fun _ _ => 2⟩, Mat.zero 1 1) }).move mBlk).2
        = (rBlk.move mBlk).2
      ∧ ((({ rBlk with model := fun _ _ _ =>
          (Vec.zero 1, ⟨1, 1, fun _ _ => 2⟩, Mat.zero 1 1) }).move mBlk).1).XNEW_x
          = ((rBlk.move mBlk).1).XNEW_x
      ∧ ((({ rBlk with model := fun _ _ _ =>
          (Vec.zero 1, ⟨1, 1, fun _ _ => 2⟩, Mat.zero 1 1) }).move mBlk).1).XNEW_control
          = ((rBlk.move mBlk).1).XNEW_control
      ∧ ((({ rBlk with model := fun _ _ _ =>
          (Vec.zero 1, ⟨1, 1, fun _ _ => 2⟩, Mat.zero 1 1) }).move mBlk).1).Q
          = ((rBlk.move mBlk).1).Q)
    ∧ ((((rBlk.move mBlk).1).XNEW_x.rows = rBlk.n
        ∧ ((rBlk.move mBlk).1).XNEW_x.cols = rBlk.n)
      ∧ ((rBlk.move mBlk).1).XNEW_control.rows = rBlk.n
      ∧ ((rBlk.move mBlk).1).XNEW_control.cols = rBlk.control.size) :=
  ⟨move_func_wrapper_spec.2.1 rBlk mBlk _ rfl,
   move_func_wrapper_spec.2.2 rBlk mBlk (fun _ _ _ => ⟨⟨rfl, rfl⟩, rfl, rfl⟩)⟩

end RtSlam
